import Mathlib

/-!
Shallow embedding of `isp_loader.py` (Nuvoton UART ISP loader).

The serial transport is modelled by passing the reply that
`isp_serial.readline()` / `isp_serial.read(64)` would deliver as an explicit
argument (the empty list models the empty reply), and by collecting the byte
strings handed to `isp_serial.write` in an output list.  Serial-timeout
configuration, `time.sleep` and the progress bar are transport/UI level and
do not touch the modelled state, so they are not represented.  Bytes are
modelled as `Nat`; where a claim needs them to be bytes, the hypothesis
`b < 256` is made explicit.
-/

namespace ISP

/-- Command constants of class `ISPCommand` (isp_loader.py lines 16-36). -/
def CMD_UPDATE_APROM : Nat := 0xA0

/-- Command constant (isp_loader.py line 18). -/
def CMD_READ_CONFIG : Nat := 0xA2

/-- Command constant (isp_loader.py line 19). -/
def CMD_ERASE_ALL : Nat := 0xA3

/-- Command constant (isp_loader.py line 20). -/
def CMD_SYNC_PACKNO : Nat := 0xA4

/-- Command constant (isp_loader.py line 21). -/
def CMD_GET_FWVER : Nat := 0xA6

/-- Command constant (isp_loader.py line 22). -/
def CMD_RUN_APROM : Nat := 0xAB

/-- Command constant (isp_loader.py line 23). -/
def CMD_RUN_LDROM : Nat := 0xAC

/-- Command constant (isp_loader.py line 24). -/
def CMD_RESET : Nat := 0xAD

/-- Command constant (isp_loader.py line 25). -/
def CMD_CONNECT : Nat := 0xAE

/-- Command constant (isp_loader.py line 28). -/
def CMD_GET_DEVICEID : Nat := 0xB1

/-- Packet length constant (isp_loader.py line 36). -/
def BUFFER_LEN : Nat := 64

/-- Mutable fields of the `ISPLoader` object (isp_loader.py lines 40-53).
The `isp_serial` handle, its timeout and the `progress` field carry no
protocol state and are omitted. -/
structure ISPState where
  isp_buffer : List Nat
  mcu_connect_status : Bool
  package_no : Nat
  firmware_version : Nat
  device_id : Nat
  config_0 : Nat
  config_1 : Nat
deriving Repr, DecidableEq

/-- The freshly constructed loader state (isp_loader.py lines 43-52). -/
def initState : ISPState :=
  { isp_buffer := []
    mcu_connect_status := false
    package_no := 1
    firmware_version := 0x00
    device_id := 0x00
    config_0 := 0x00
    config_1 := 0x00 }

/-- `updatePackageNumber` (isp_loader.py lines 55-64): store the little-endian
bytes of `package_no` at buffer offsets 4-7. -/
def updatePackageNumber (s : ISPState) : ISPState :=
  { s with isp_buffer :=
      ((((s.isp_buffer.set 4 (s.package_no &&& 0xFF)).set 5
          ((s.package_no >>> 8) &&& 0xFF)).set 6
          ((s.package_no >>> 16) &&& 0xFF)).set 7
          ((s.package_no >>> 24) &&& 0xFF)) }

/-- `bufferClear` (isp_loader.py lines 66-74): buffer becomes 64 zero bytes. -/
def bufferClear (s : ISPState) : ISPState :=
  { s with isp_buffer := List.replicate BUFFER_LEN 0x00 }

/-- `appendBufferEmptyValues` (isp_loader.py lines 76-85). -/
def appendBufferEmptyValues (s : ISPState) (length : Nat) : ISPState :=
  { s with isp_buffer := List.replicate length 0x00 }

/-- `calculateChecksum` (isp_loader.py lines 313-333): a response passes iff
it has more than 7 bytes, its first two bytes hold (little-endian) the byte
sum of the current `isp_buffer` mod 65536, and bytes 4-7 hold (little-endian)
`package_no + 1`. -/
def calculateChecksum (s : ISPState) (resp : List Nat) : Bool :=
  if resp.length > 7 then
    let checksum := (s.isp_buffer.foldl (fun a b => a + b) 0) % 65536
    let package_checksum := resp.getD 0 0 ||| (resp.getD 1 0 <<< 8)
    let stat := package_checksum == checksum
    let returnPackageNo :=
      (((resp.getD 7 0 <<< 24) ||| (resp.getD 6 0 <<< 16)) |||
        (resp.getD 5 0 <<< 8)) ||| resp.getD 4 0
    if stat then
      if returnPackageNo != s.package_no + 1 then false else true
    else false
  else false

/-- Outcome of one command method: the Python return value (`Option Bool`
models `True` / `False` / `None`), the final object state, and the byte
strings written to the serial port. -/
structure CmdOut (α : Type) where
  ret : α
  state : ISPState
  writes : List (List Nat)
deriving Repr, DecidableEq

/-- The packet-building prefix shared verbatim by `readConfigMCU`,
`readDeviceIDMCU`, `readFirmwareVersionMCU`, `resetMCU`, `runAPROM`,
`runLDROM` and `eraseAllMCU`: `bufferClear`; `isp_buffer[0] = cmd`;
`package_no += 2`; `updatePackageNumber` (e.g. isp_loader.py lines 119-122). -/
def simpleCmdBuild (s : ISPState) (cmd : Nat) : ISPState :=
  let s := bufferClear s
  let s := { s with isp_buffer := s.isp_buffer.set 0 cmd }
  let s := { s with package_no := s.package_no + 2 }
  updatePackageNumber s

/-- Packet built by `connectMCU` (isp_loader.py lines 95-98): the sequence
number is reset to 1 before the buffer is cleared and filled. -/
def connectBuild (s : ISPState) : ISPState :=
  let s := { s with package_no := 1 }
  let s := bufferClear s
  let s := { s with isp_buffer := s.isp_buffer.set 0 CMD_CONNECT }
  updatePackageNumber s

/-- Packet built by `syncMCU` (isp_loader.py lines 246-253): sequence number
reset to 1, then also stored little-endian at buffer offsets 8-11 (offset 8
is written without a mask, exactly as in the source). -/
def syncBuild (s : ISPState) : ISPState :=
  let s := bufferClear s
  let s := { s with isp_buffer := s.isp_buffer.set 0 CMD_SYNC_PACKNO }
  let s := { s with package_no := 1 }
  let s := updatePackageNumber s
  { s with isp_buffer :=
      ((((s.isp_buffer.set 8 s.package_no).set 9
          ((s.package_no >>> 8) &&& 0xFF)).set 10
          ((s.package_no >>> 16) &&& 0xFF)).set 11
          ((s.package_no >>> 24) &&& 0xFF)) }

/-- `connectMCU` (isp_loader.py lines 87-110).  Returns a plain `Bool`
(`return self.mcu_connect_status`); when already connected nothing is sent. -/
def connectMCU (s : ISPState) (resp : List Nat) : CmdOut Bool :=
  if !s.mcu_connect_status then
    let t := connectBuild s
    let w := [t.isp_buffer]
    if resp ≠ [] then
      if calculateChecksum t resp then
        { ret := true, state := { t with mcu_connect_status := true }, writes := w }
      else
        { ret := false, state := { t with mcu_connect_status := false }, writes := w }
    else
      { ret := false, state := { t with mcu_connect_status := false }, writes := w }
  else
    { ret := s.mcu_connect_status, state := s, writes := [] }

/-- `readConfigMCU` (isp_loader.py lines 112-134).  On a valid response the
two config words are read little-endian from response offsets 8-15; on a
non-empty invalid response the function falls off the end (Python `None`). -/
def readConfigMCU (s : ISPState) (resp : List Nat) : CmdOut (Option Bool) :=
  if s.mcu_connect_status then
    let t := simpleCmdBuild s CMD_READ_CONFIG
    let w := [t.isp_buffer]
    if resp ≠ [] then
      if calculateChecksum t resp then
        { ret := some true
          state := { t with
            config_0 := ((resp.getD 8 0 ||| (resp.getD 9 0 <<< 8)) |||
              (resp.getD 10 0 <<< 16)) ||| (resp.getD 11 0 <<< 24)
            config_1 := ((resp.getD 12 0 ||| (resp.getD 13 0 <<< 8)) |||
              (resp.getD 14 0 <<< 16)) ||| (resp.getD 15 0 <<< 24) }
          writes := w }
      else
        { ret := none, state := t, writes := w }
    else
      { ret := some false, state := t, writes := w }
  else
    { ret := some false, state := s, writes := [] }

/-- `readDeviceIDMCU` (isp_loader.py lines 136-157). -/
def readDeviceIDMCU (s : ISPState) (resp : List Nat) : CmdOut (Option Bool) :=
  if s.mcu_connect_status then
    let t := simpleCmdBuild s CMD_GET_DEVICEID
    let w := [t.isp_buffer]
    if resp ≠ [] then
      if calculateChecksum t resp then
        { ret := some true
          state := { t with
            device_id := ((resp.getD 8 0 ||| (resp.getD 9 0 <<< 8)) |||
              (resp.getD 10 0 <<< 16)) ||| (resp.getD 11 0 <<< 24) }
          writes := w }
      else
        { ret := none, state := t, writes := w }
    else
      { ret := some false, state := t, writes := w }
  else
    { ret := some false, state := s, writes := [] }

/-- `readFirmwareVersionMCU` (isp_loader.py lines 159-180). -/
def readFirmwareVersionMCU (s : ISPState) (resp : List Nat) : CmdOut (Option Bool) :=
  if s.mcu_connect_status then
    let t := simpleCmdBuild s CMD_GET_FWVER
    let w := [t.isp_buffer]
    if resp ≠ [] then
      if calculateChecksum t resp then
        { ret := some true
          state := { t with firmware_version := resp.getD 8 0 }
          writes := w }
      else
        { ret := none, state := t, writes := w }
    else
      { ret := some false, state := t, writes := w }
  else
    { ret := some false, state := s, writes := [] }

/-- `resetMCU` (isp_loader.py lines 182-199): the response is read but never
inspected; the connection flag is dropped unconditionally and `True`
returned. -/
def resetMCU (s : ISPState) (resp : List Nat) : CmdOut Bool :=
  if s.mcu_connect_status then
    let t := simpleCmdBuild s CMD_RESET
    { ret := true, state := { t with mcu_connect_status := false },
      writes := [t.isp_buffer] }
  else
    { ret := false, state := s, writes := [] }

/-- `runAPROM` (isp_loader.py lines 201-218). -/
def runAPROM (s : ISPState) (resp : List Nat) : CmdOut Bool :=
  if s.mcu_connect_status then
    let t := simpleCmdBuild s CMD_RUN_APROM
    { ret := true, state := { t with mcu_connect_status := false },
      writes := [t.isp_buffer] }
  else
    { ret := false, state := s, writes := [] }

/-- `runLDROM` (isp_loader.py lines 220-237). -/
def runLDROM (s : ISPState) (resp : List Nat) : CmdOut Bool :=
  if s.mcu_connect_status then
    let t := simpleCmdBuild s CMD_RUN_LDROM
    { ret := true, state := { t with mcu_connect_status := false },
      writes := [t.isp_buffer] }
  else
    { ret := false, state := s, writes := [] }

/-- `syncMCU` (isp_loader.py lines 239-263). -/
def syncMCU (s : ISPState) (resp : List Nat) : CmdOut (Option Bool) :=
  if s.mcu_connect_status then
    let t := syncBuild s
    let w := [t.isp_buffer]
    if resp ≠ [] then
      if calculateChecksum t resp then
        { ret := some true, state := t, writes := w }
      else
        { ret := none, state := t, writes := w }
    else
      { ret := some false, state := t, writes := w }
  else
    { ret := some false, state := s, writes := [] }

/-- `eraseAllMCU` (isp_loader.py lines 265-289).  The 0.5 s settle loop and
timeout switches affect no modelled state. -/
def eraseAllMCU (s : ISPState) (resp : List Nat) : CmdOut (Option Bool) :=
  if s.mcu_connect_status then
    let t := simpleCmdBuild s CMD_ERASE_ALL
    let w := [t.isp_buffer]
    if resp ≠ [] then
      if calculateChecksum t resp then
        { ret := some true, state := t, writes := w }
      else
        { ret := none, state := t, writes := w }
    else
      { ret := some false, state := t, writes := w }
  else
    { ret := some false, state := s, writes := [] }

/-- `writeDataToBuffer` (isp_loader.py lines 291-311): when connected, build
the first upload packet (`CMD_UPDATE_APROM`, address at offsets 8-11, file
length at offsets 12-15) in a buffer of `buffer_size` bytes and advance the
sequence number; when not connected it does nothing. -/
def writeDataToBuffer (s : ISPState) (file_len buffer_size address : Nat) : ISPState :=
  if s.mcu_connect_status then
    let s := appendBufferEmptyValues s buffer_size
    let s := { s with package_no := s.package_no + 2 }
    let s := { s with isp_buffer := s.isp_buffer.set 0 CMD_UPDATE_APROM }
    let s := updatePackageNumber s
    { s with isp_buffer :=
        ((((((((s.isp_buffer.set 8 (address &&& 0xFF)).set 9
            ((address >>> 8) &&& 0xFF)).set 10
            ((address >>> 16) &&& 0xFF)).set 11
            ((address >>> 24) &&& 0xFF)).set 12
            (file_len &&& 0xFF)).set 13
            ((file_len >>> 8) &&& 0xFF)).set 14
            ((file_len >>> 16) &&& 0xFF)).set 15
            ((file_len >>> 24) &&& 0xFF)) }
  else
    s

/-- State threaded through `writeBinaryMCU`'s for-loop: the object state, the
local `start_byte_len`, and the accumulated serial writes. -/
structure LoopOut where
  state : ISPState
  sbl : Nat
  ws : List (List Nat)
deriving Repr, DecidableEq

/-- The for-loop of `writeBinaryMCU` over the firmware bytes (isp_loader.py
lines 349-360).  When `start_byte_len` is a multiple of 64 the full buffer is
flushed to the port, the sequence number advances by 2, and a fresh 8-byte
header buffer is started before the current byte is appended (the in-loop
`read(64)` replies are discarded by the source and so not modelled). -/
def writeLoop : List Nat → ISPState → Nat → List (List Nat) → LoopOut
  | [], s, sbl, ws => { state := s, sbl := sbl, ws := ws }
  | b :: rest, s, sbl, ws =>
    if sbl % BUFFER_LEN == 0 then
      let ws := ws ++ [s.isp_buffer]
      let s := { s with package_no := s.package_no + 2 }
      let s := appendBufferEmptyValues s 8
      let s := updatePackageNumber s
      let s := { s with isp_buffer := s.isp_buffer ++ [b] }
      writeLoop rest s (8 + 1) ws
    else
      let s := { s with isp_buffer := s.isp_buffer ++ [b] }
      writeLoop rest s (sbl + 1) ws

/-- Number of in-loop flushes `writeLoop` performs: the `start_byte_len`
trajectory of the source loop (flush when it is a multiple of 64, after
which it restarts at `8 + 1`), counted over `n` iterations. -/
def flushCount : Nat → Nat → Nat
  | 0, _ => 0
  | n + 1, sbl =>
    if sbl % BUFFER_LEN == 0 then flushCount n 9 + 1 else flushCount n (sbl + 1)

/-- `writeBinaryMCU` (isp_loader.py lines 335-370).  `file_content` is the
byte string read from the firmware file; `finalResp` is the reply to the
final flushed packet (the only one the source validates).  The source's
padding `while` loop appends zeros until `start_byte_len` reaches 64, i.e. it
appends `64 - start_byte_len` zeros (on every reachable path
`start_byte_len ≤ 64` holds, see `writeLoop_sbl_le`). -/
def writeBinaryMCU (s : ISPState) (file_content : List Nat) (finalResp : List Nat) :
    CmdOut (Option Bool) :=
  let s := bufferClear s
  let file_size := file_content.length
  let s := { s with isp_buffer := [] }
  let start_byte_len := 16
  let s := writeDataToBuffer s file_size 16 0
  let r := writeLoop file_content s start_byte_len []
  if r.sbl > 0 then
    let t := { r.state with
      isp_buffer := r.state.isp_buffer ++ List.replicate (BUFFER_LEN - r.sbl) 0x00 }
    let ws := r.ws ++ [t.isp_buffer]
    if calculateChecksum t finalResp then
      { ret := some true, state := t, writes := ws }
    else
      { ret := some false, state := t, writes := ws }
  else
    { ret := none, state := r.state, writes := r.ws }

/-- Per-iteration command outcomes seen by the top-level retry loops:
whether `connectMCU`, the first `syncMCU` and the second `syncMCU` report
success.  (The optional reads and the erase between the two syncs do not
influence the loops' control flow.) -/
structure LoopOutcome where
  connectOk : Bool
  sync1Ok : Bool
  sync2Ok : Bool

/-- Control-flow skeleton of the retry loop in `main` (isp_loader.py lines
491-526), with command outcomes per iteration abstracted as an oracle.
`counter` is `timeout_counter`, `i` counts iterations; on a successful
connect the source resets `timeout_counter = 0` (line 495).  Fuel-indexed:
`none` means the loop was still running after `fuel` iterations, `some j`
means it exited with `j` iterations executed. -/
def mainLoopRun (oracle : Nat → LoopOutcome) (budget : Nat) :
    Nat → Nat → Nat → Option Nat
  | 0, _, _ => none
  | fuel + 1, counter, i =>
    if counter < budget then
      let o := oracle i
      let counter2 := if o.connectOk then 0 else counter
      if o.connectOk && o.sync1Ok && o.sync2Ok then some (i + 1)
      else mainLoopRun oracle budget fuel (counter2 + 10) (i + 1)
    else some i

/-- Control-flow skeleton of the retry loop in `mcuLoadSoftware`
(isp_loader.py lines 390-409): identical to `main`'s loop except that
`timeout_counter` is never reset. -/
def loadLoopRun (oracle : Nat → LoopOutcome) (budget : Nat) :
    Nat → Nat → Nat → Option Nat
  | 0, _, _ => none
  | fuel + 1, counter, i =>
    if counter < budget then
      let o := oracle i
      if o.connectOk && o.sync1Ok && o.sync2Ok then some (i + 1)
      else loadLoopRun oracle budget fuel (counter + 10) (i + 1)
    else some i

/-- An outcome sequence on which `connectMCU` always succeeds and `syncMCU`
always fails (realizable: once `mcu_connect_status` is `true`, `connectMCU`
keeps returning `True`, and a device echoing bad checksums fails every sync). -/
def alwaysConnectNeverSync : Nat → LoopOutcome :=
  fun _ => { connectOk := true, sync1Ok := false, sync2Ok := false }

/-- The command methods other than `connectMCU` and `syncMCU` (the ones the
spec's sequence-number property quantifies over). -/
inductive CmdK where
  | readConfig
  | readDeviceID
  | readFirmwareVersion
  | eraseAll
  | reset
  | runAprom
  | runLdrom
deriving Repr, DecidableEq

/-- Dispatch one non-connect/non-sync command method; the plain-`Bool`
returns of `resetMCU` / `runAPROM` / `runLDROM` are wrapped in `some`. -/
def runCmdK : CmdK → ISPState → List Nat → CmdOut (Option Bool)
  | .readConfig, s, r => readConfigMCU s r
  | .readDeviceID, s, r => readDeviceIDMCU s r
  | .readFirmwareVersion, s, r => readFirmwareVersionMCU s r
  | .eraseAll, s, r => eraseAllMCU s r
  | .reset, s, r =>
    let o := resetMCU s r
    { ret := some o.ret, state := o.state, writes := o.writes }
  | .runAprom, s, r =>
    let o := runAPROM s r
    { ret := some o.ret, state := o.state, writes := o.writes }
  | .runLdrom, s, r =>
    let o := runLDROM s r
    { ret := some o.ret, state := o.state, writes := o.writes }

/-- Run a sequence of non-connect/non-sync commands, each with its wire
response, threading the loader state. -/
def runSeq : ISPState → List (CmdK × List Nat) → ISPState
  | s, [] => s
  | s, (k, r) :: rest => runSeq (runCmdK k s r).state rest

/-- Every command of the sequence reported success (`True`). -/
def allOk : ISPState → List (CmdK × List Nat) → Bool
  | _, [] => true
  | s, (k, r) :: rest =>
    ((runCmdK k s r).ret == some true) && allOk (runCmdK k s r).state rest

/-- The four session fields a failed command must not disturb. -/
def fieldsPreserved (s t : ISPState) : Prop :=
  t.device_id = s.device_id ∧ t.firmware_version = s.firmware_version ∧
    t.config_0 = s.config_0 ∧ t.config_1 = s.config_1

/-- A freshly constructed loader that has seen a successful connect
(connection flag set, sequence number 1): concrete state for witnesses. -/
def sConn : ISPState := { initState with mcu_connect_status := true }

/-- A loader state that is not connected: concrete state for witnesses. -/
def sDisc : ISPState := initState

/-- A wire response that validates against the packet `readConfigMCU` builds
from `sConn`: checksum bytes `165, 0` (the packet byte sum 0xA2 + 3 = 165)
and echoed sequence `4 = 3 + 1` at offsets 4-7. -/
def respOkReadConfig : List Nat :=
  [165, 0, 0, 0, 4, 0, 0, 0, 0, 0, 0, 0, 0, 0, 0, 0]

/-- A non-empty 8-byte response whose checksum field (0) matches no packet
this loader sends: concrete invalid response for witnesses. -/
def respBad8 : List Nat := [0, 0, 0, 0, 0, 0, 0, 0]

/-! ### Helper lemmas -/

/-- Splitting a bitwise-or of a shifted value and a small value into a sum. -/
theorem lor_mul_add {k : Nat} (x y : Nat) (hy : y < 2 ^ k) :
    2 ^ k * x ||| y = 2 ^ k * x + y :=
  (Nat.mul_add_lt_is_or hy x).symm

/-- Python's `resp[0] | (resp[1] << 8)` on bytes is the little-endian 16-bit
value. -/
theorem lor_byte16 (r0 r1 : Nat) (h0 : r0 < 256) :
    r0 ||| (r1 <<< 8) = r0 + 256 * r1 := by
  have : r0 ||| r1 <<< 8 = 2 ^ 8 * r1 + r0 := by
    rw [Nat.shiftLeft_eq, Nat.lor_comm, Nat.mul_comm r1 (2 ^ 8),
      lor_mul_add r1 r0 (by norm_num; omega)]
  rw [this]; ring

/-- Python's `(resp[7] << 24) | (resp[6] << 16) | (resp[5] << 8) | resp[4]`
on bytes is the little-endian 32-bit value. -/
theorem lor_byte32 (r4 r5 r6 r7 : Nat) (h4 : r4 < 256) (h5 : r5 < 256)
    (h6 : r6 < 256) :
    (((r7 <<< 24) ||| (r6 <<< 16)) ||| (r5 <<< 8)) ||| r4
      = r4 + 256 * r5 + 65536 * r6 + 16777216 * r7 := by
  have h1 : r7 <<< 24 ||| r6 <<< 16 = 2 ^ 16 * (2 ^ 8 * r7 + r6) := by
    rw [Nat.shiftLeft_eq, Nat.shiftLeft_eq, Nat.mul_comm r7 (2 ^ 24),
      lor_mul_add r7 (r6 * 2 ^ 16) (by norm_num; omega)]
    ring
  have h2 : 2 ^ 16 * (2 ^ 8 * r7 + r6) ||| r5 <<< 8
      = 2 ^ 8 * (2 ^ 8 * (2 ^ 8 * r7 + r6) + r5) := by
    rw [Nat.shiftLeft_eq,
      lor_mul_add (2 ^ 8 * r7 + r6) (r5 * 2 ^ 8) (by norm_num; omega)]
    ring
  have h3 : 2 ^ 8 * (2 ^ 8 * (2 ^ 8 * r7 + r6) + r5) ||| r4
      = 2 ^ 8 * (2 ^ 8 * (2 ^ 8 * r7 + r6) + r5) + r4 :=
    lor_mul_add (2 ^ 8 * (2 ^ 8 * r7 + r6) + r5) r4 (by norm_num; omega)
  rw [h1, h2, h3]; ring

/-- Entries looked up inside the range of a list of bytes are bytes. -/
theorem getD_lt_256 {l : List Nat} (h : ∀ b ∈ l, b < 256) {i : Nat}
    (hi : i < l.length) : l.getD i 0 < 256 := by
  rw [List.getD_eq_getElem?_getD, List.getElem?_eq_getElem hi]
  exact h _ (List.getElem_mem hi)

/-! ### Claim C1 -/

/-- Claim C1: response validation (`calculateChecksum`) succeeds if and only
if the response has at least 8 bytes, the byte sum of the most recently
built/sent packet buffer modulo 65536 equals the little-endian 16-bit value
at response bytes 0-1, and the little-endian 32-bit value at response bytes
4-7 equals the current sequence number plus 1; every response shorter than
8 bytes fails. -/
theorem C1_calculateChecksum_iff (s : ISPState) (resp : List Nat)
    (hbytes : ∀ b ∈ resp, b < 256) :
    (calculateChecksum s resp = true ↔
      8 ≤ resp.length ∧
      (s.isp_buffer.foldl (fun a b => a + b) 0) % 65536
        = resp.getD 0 0 + 256 * resp.getD 1 0 ∧
      resp.getD 4 0 + 256 * resp.getD 5 0 + 65536 * resp.getD 6 0
        + 16777216 * resp.getD 7 0 = s.package_no + 1) ∧
    (resp.length < 8 → calculateChecksum s resp = false) := by
  refine ⟨?_, ?_⟩
  · by_cases hlen : resp.length > 7
    · have h0 := getD_lt_256 hbytes (show 0 < resp.length by omega)
      have h4 := getD_lt_256 hbytes (show 4 < resp.length by omega)
      have h5 := getD_lt_256 hbytes (show 5 < resp.length by omega)
      have h6 := getD_lt_256 hbytes (show 6 < resp.length by omega)
      unfold calculateChecksum
      rw [if_pos hlen, lor_byte16 _ _ h0, lor_byte32 _ _ _ _ h4 h5 h6]
      simp only [beq_iff_eq, bne_iff_ne, ne_eq, ite_not]
      split_ifs with hcs hpn
      · simp only [true_iff]
        exact ⟨by omega, hcs.symm, hpn⟩
      · simp only [false_iff]
        rintro ⟨-, -, h⟩
        exact hpn h
      · simp only [false_iff]
        rintro ⟨-, h, -⟩
        exact hcs h.symm
    · unfold calculateChecksum
      rw [if_neg hlen]
      constructor
      · intro h
        exact absurd h (by simp)
      · rintro ⟨h8, -, -⟩
        exact absurd h8 (by omega)
  · intro hshort
    unfold calculateChecksum
    rw [if_neg (by omega)]

/-- Witness for C1 at a concrete packet and response: the packet built by
`readConfigMCU` from a fresh connected session sums to 165 and carries
sequence number 3, and the response `respOkReadConfig` validates. -/
theorem C1_calculateChecksum_iff_witness :
    calculateChecksum (simpleCmdBuild sConn CMD_READ_CONFIG) respOkReadConfig = true ↔
      8 ≤ respOkReadConfig.length ∧
      ((simpleCmdBuild sConn CMD_READ_CONFIG).isp_buffer.foldl
          (fun a b => a + b) 0) % 65536
        = respOkReadConfig.getD 0 0 + 256 * respOkReadConfig.getD 1 0 ∧
      respOkReadConfig.getD 4 0 + 256 * respOkReadConfig.getD 5 0
        + 65536 * respOkReadConfig.getD 6 0
        + 16777216 * respOkReadConfig.getD 7 0
        = (simpleCmdBuild sConn CMD_READ_CONFIG).package_no + 1 :=
  (C1_calculateChecksum_iff (simpleCmdBuild sConn CMD_READ_CONFIG)
    respOkReadConfig (by decide)).1

/-! ### Claim C3 -/

/-- Every successfully executed non-connect/non-sync command advances the
sequence number by exactly 2 (`self.package_no += 2` before transmission). -/
theorem runCmdK_package_no (k : CmdK) (s : ISPState) (r : List Nat)
    (h : (runCmdK k s r).ret = some true) :
    (runCmdK k s r).state.package_no = s.package_no + 2 := by
  cases k with
  | readConfig =>
    by_cases h1 : s.mcu_connect_status = true
    · by_cases h2 : r = []
      · simp [runCmdK, readConfigMCU, h1, h2] at h
      · by_cases h3 : calculateChecksum (simpleCmdBuild s CMD_READ_CONFIG) r = true
        · unfold runCmdK readConfigMCU
          dsimp only
          rw [if_pos h1, if_pos h2, if_pos h3]
          rfl
        · simp [runCmdK, readConfigMCU, h1, h2, h3] at h
    · simp [runCmdK, readConfigMCU, h1] at h
  | readDeviceID =>
    by_cases h1 : s.mcu_connect_status = true
    · by_cases h2 : r = []
      · simp [runCmdK, readDeviceIDMCU, h1, h2] at h
      · by_cases h3 : calculateChecksum (simpleCmdBuild s CMD_GET_DEVICEID) r = true
        · unfold runCmdK readDeviceIDMCU
          dsimp only
          rw [if_pos h1, if_pos h2, if_pos h3]
          rfl
        · simp [runCmdK, readDeviceIDMCU, h1, h2, h3] at h
    · simp [runCmdK, readDeviceIDMCU, h1] at h
  | readFirmwareVersion =>
    by_cases h1 : s.mcu_connect_status = true
    · by_cases h2 : r = []
      · simp [runCmdK, readFirmwareVersionMCU, h1, h2] at h
      · by_cases h3 : calculateChecksum (simpleCmdBuild s CMD_GET_FWVER) r = true
        · unfold runCmdK readFirmwareVersionMCU
          dsimp only
          rw [if_pos h1, if_pos h2, if_pos h3]
          rfl
        · simp [runCmdK, readFirmwareVersionMCU, h1, h2, h3] at h
    · simp [runCmdK, readFirmwareVersionMCU, h1] at h
  | eraseAll =>
    by_cases h1 : s.mcu_connect_status = true
    · by_cases h2 : r = []
      · simp [runCmdK, eraseAllMCU, h1, h2] at h
      · by_cases h3 : calculateChecksum (simpleCmdBuild s CMD_ERASE_ALL) r = true
        · unfold runCmdK eraseAllMCU
          dsimp only
          rw [if_pos h1, if_pos h2, if_pos h3]
          rfl
        · simp [runCmdK, eraseAllMCU, h1, h2, h3] at h
    · simp [runCmdK, eraseAllMCU, h1] at h
  | reset =>
    by_cases h1 : s.mcu_connect_status = true
    · simp [runCmdK, resetMCU, h1, simpleCmdBuild, bufferClear,
        updatePackageNumber]
    · simp [runCmdK, resetMCU, h1] at h
  | runAprom =>
    by_cases h1 : s.mcu_connect_status = true
    · simp [runCmdK, runAPROM, h1, simpleCmdBuild, bufferClear,
        updatePackageNumber]
    · simp [runCmdK, runAPROM, h1] at h
  | runLdrom =>
    by_cases h1 : s.mcu_connect_status = true
    · simp [runCmdK, runLDROM, h1, simpleCmdBuild, bufferClear,
        updatePackageNumber]
    · simp [runCmdK, runLDROM, h1] at h

/-- A run of successfully executed non-connect/non-sync commands advances
the sequence number by 2 per command. -/
theorem runSeq_package_no (steps : List (CmdK × List Nat)) :
    ∀ s : ISPState, allOk s steps = true →
      (runSeq s steps).package_no = s.package_no + 2 * steps.length := by
  induction steps with
  | nil => intro s _; simp [runSeq]
  | cons p rest ih =>
    intro s h
    obtain ⟨k, r⟩ := p
    rw [allOk, Bool.and_eq_true, beq_iff_eq] at h
    obtain ⟨h1, h2⟩ := h
    rw [runSeq, ih _ h2, runCmdK_package_no k s r h1, List.length_cons]
    ring

/-- Claim C3: starting from a freshly synced sequence value of 1, after `N`
successfully executed commands other than connect and sync the session's
sequence number equals `1 + 2N`. -/
theorem C3_package_no_after_N_commands (steps : List (CmdK × List Nat))
    (s : ISPState) (hstart : s.package_no = 1)
    (hok : allOk s steps = true) :
    (runSeq s steps).package_no = 1 + 2 * steps.length := by
  rw [runSeq_package_no steps s hok, hstart]

/-- Witness for C3: one successful `readConfigMCU` from a freshly synced
connected session ends with sequence number `1 + 2 * 1`. -/
theorem C3_package_no_after_N_commands_witness :
    (runSeq sConn [(CmdK.readConfig, respOkReadConfig)]).package_no
      = 1 + 2 * List.length [(CmdK.readConfig, respOkReadConfig)] :=
  C3_package_no_after_N_commands [(CmdK.readConfig, respOkReadConfig)] sConn
    rfl (by decide)

/-! ### Claim C5 -/

/-- Claim C5: for every prior value of the sequence number, executing
`syncMCU` on a connected session sets the sequence number to 1 (the reset
happens while the packet is built, before any response is inspected, so it
holds for every response). -/
theorem C5_sync_resets_package_no (s : ISPState) (resp : List Nat)
    (hconn : s.mcu_connect_status = true) :
    (syncMCU s resp).state.package_no = 1 := by
  unfold syncMCU
  rw [if_pos hconn]
  dsimp only
  split_ifs <;> rfl

/-- Witness for C5: a connected session with sequence number 77 and an empty
response still ends with sequence number 1. -/
theorem C5_sync_resets_package_no_witness :
    (syncMCU { sConn with package_no := 77 } []).state.package_no = 1 :=
  C5_sync_resets_package_no { sConn with package_no := 77 } [] rfl

/-! ### Claim C9 -/

/-- Claim C9: for every response, `resetMCU`, `runAPROM` and `runLDROM` on a
connected session drop the connection flag after sending and return
success. -/
theorem C9_run_commands_disconnect (s : ISPState) (resp : List Nat)
    (hconn : s.mcu_connect_status = true) :
    (resetMCU s resp).ret = true ∧
    (resetMCU s resp).state.mcu_connect_status = false ∧
    (runAPROM s resp).ret = true ∧
    (runAPROM s resp).state.mcu_connect_status = false ∧
    (runLDROM s resp).ret = true ∧
    (runLDROM s resp).state.mcu_connect_status = false := by
  unfold resetMCU runAPROM runLDROM
  rw [if_pos hconn, if_pos hconn, if_pos hconn]
  exact ⟨rfl, rfl, rfl, rfl, rfl, rfl⟩

/-- Witness for C9 on a fresh connected session with an invalid response. -/
theorem C9_run_commands_disconnect_witness :
    (resetMCU sConn respBad8).ret = true ∧
    (resetMCU sConn respBad8).state.mcu_connect_status = false ∧
    (runAPROM sConn respBad8).ret = true ∧
    (runAPROM sConn respBad8).state.mcu_connect_status = false ∧
    (runLDROM sConn respBad8).ret = true ∧
    (runLDROM sConn respBad8).state.mcu_connect_status = false :=
  C9_run_commands_disconnect sConn respBad8 rfl

/-! ### Claim C8 -/

/-- Claim C8: an empty response makes `connectMCU`, `syncMCU`,
`readConfigMCU`, `readDeviceIDMCU`, `readFirmwareVersionMCU` and
`eraseAllMCU` return failure (the model is total, so no exception is
possible) without touching the stored device id, firmware version or config
words; in particular `connectMCU` with an empty response leaves the
connection flag `false`. -/
theorem C8_empty_response_fails (s : ISPState) :
    (s.mcu_connect_status = false →
      (connectMCU s []).ret = false ∧
      (connectMCU s []).state.mcu_connect_status = false ∧
      fieldsPreserved s (connectMCU s []).state) ∧
    (s.mcu_connect_status = true →
      (readConfigMCU s []).ret = some false ∧
      fieldsPreserved s (readConfigMCU s []).state ∧
      (readDeviceIDMCU s []).ret = some false ∧
      fieldsPreserved s (readDeviceIDMCU s []).state ∧
      (readFirmwareVersionMCU s []).ret = some false ∧
      fieldsPreserved s (readFirmwareVersionMCU s []).state ∧
      (syncMCU s []).ret = some false ∧
      fieldsPreserved s (syncMCU s []).state ∧
      (eraseAllMCU s []).ret = some false ∧
      fieldsPreserved s (eraseAllMCU s []).state) := by
  unfold fieldsPreserved
  constructor
  · intro h
    unfold connectMCU
    rw [h]
    exact ⟨rfl, rfl, rfl, rfl, rfl, rfl⟩
  · intro h
    unfold readConfigMCU readDeviceIDMCU readFirmwareVersionMCU syncMCU
      eraseAllMCU
    rw [if_pos h, if_pos h, if_pos h, if_pos h, if_pos h]
    exact ⟨rfl, ⟨rfl, rfl, rfl, rfl⟩, rfl, ⟨rfl, rfl, rfl, rfl⟩, rfl,
      ⟨rfl, rfl, rfl, rfl⟩, rfl, ⟨rfl, rfl, rfl, rfl⟩, rfl,
      ⟨rfl, rfl, rfl, rfl⟩⟩

/-- Witness for C8: both sides at concrete states (`sDisc` for connect,
`sConn` for the rest). -/
theorem C8_empty_response_fails_witness :
    ((connectMCU sDisc []).ret = false ∧
      (connectMCU sDisc []).state.mcu_connect_status = false ∧
      fieldsPreserved sDisc (connectMCU sDisc []).state) ∧
    ((readConfigMCU sConn []).ret = some false ∧
      fieldsPreserved sConn (readConfigMCU sConn []).state ∧
      (readDeviceIDMCU sConn []).ret = some false ∧
      fieldsPreserved sConn (readDeviceIDMCU sConn []).state ∧
      (readFirmwareVersionMCU sConn []).ret = some false ∧
      fieldsPreserved sConn (readFirmwareVersionMCU sConn []).state ∧
      (syncMCU sConn []).ret = some false ∧
      fieldsPreserved sConn (syncMCU sConn []).state ∧
      (eraseAllMCU sConn []).ret = some false ∧
      fieldsPreserved sConn (eraseAllMCU sConn []).state) :=
  ⟨(C8_empty_response_fails sDisc).1 rfl, (C8_empty_response_fails sConn).2 rfl⟩

/-! ### Claim C10 -/

/-- Claim C10: on a connected session, a non-empty response that fails
checksum/sequence validation makes `readConfigMCU`, `readDeviceIDMCU`,
`readFirmwareVersionMCU`, `syncMCU` and `eraseAllMCU` fall off the end of
the function, i.e. return Python `None` (modelled `none`) — distinct from
the `False` (`some false`) of the empty-response and not-connected paths. -/
theorem C10_invalid_checksum_returns_none (s : ISPState) (resp : List Nat)
    (hconn : s.mcu_connect_status = true) (hne : resp ≠ []) :
    (calculateChecksum (simpleCmdBuild s CMD_READ_CONFIG) resp = false →
      (readConfigMCU s resp).ret = none) ∧
    (calculateChecksum (simpleCmdBuild s CMD_GET_DEVICEID) resp = false →
      (readDeviceIDMCU s resp).ret = none) ∧
    (calculateChecksum (simpleCmdBuild s CMD_GET_FWVER) resp = false →
      (readFirmwareVersionMCU s resp).ret = none) ∧
    (calculateChecksum (syncBuild s) resp = false →
      (syncMCU s resp).ret = none) ∧
    (calculateChecksum (simpleCmdBuild s CMD_ERASE_ALL) resp = false →
      (eraseAllMCU s resp).ret = none) := by
  refine ⟨fun hc => ?_, fun hc => ?_, fun hc => ?_, fun hc => ?_, fun hc => ?_⟩
  · simp [readConfigMCU, hconn, hne, hc]
  · simp [readDeviceIDMCU, hconn, hne, hc]
  · simp [readFirmwareVersionMCU, hconn, hne, hc]
  · simp [syncMCU, hconn, hne, hc]
  · simp [eraseAllMCU, hconn, hne, hc]

/-- Witness for C10: the all-zero 8-byte response `respBad8` fails
validation against every packet a fresh connected session builds, and each
of the five commands then returns `none`. -/
theorem C10_invalid_checksum_returns_none_witness :
    (readConfigMCU sConn respBad8).ret = none ∧
    (readDeviceIDMCU sConn respBad8).ret = none ∧
    (readFirmwareVersionMCU sConn respBad8).ret = none ∧
    (syncMCU sConn respBad8).ret = none ∧
    (eraseAllMCU sConn respBad8).ret = none :=
  ⟨(C10_invalid_checksum_returns_none sConn respBad8 rfl (by decide)).1
      (by decide),
    (C10_invalid_checksum_returns_none sConn respBad8 rfl (by decide)).2.1
      (by decide),
    (C10_invalid_checksum_returns_none sConn respBad8 rfl (by decide)).2.2.1
      (by decide),
    (C10_invalid_checksum_returns_none sConn respBad8 rfl (by decide)).2.2.2.1
      (by decide),
    (C10_invalid_checksum_returns_none sConn respBad8 rfl (by decide)).2.2.2.2
      (by decide)⟩

/-! ### Upload-engine lemmas (for claims C2 and C4) -/

/-- The `start_byte_len` counter stays in `(0, 64]` throughout the upload
loop. -/
theorem writeLoop_sbl (bs : List Nat) :
    ∀ (s : ISPState) (sbl : Nat) (ws : List (List Nat)),
      0 < sbl → sbl ≤ 64 →
      0 < (writeLoop bs s sbl ws).sbl ∧ (writeLoop bs s sbl ws).sbl ≤ 64 := by
  induction bs with
  | nil => intro s sbl ws h1 h2; exact ⟨h1, h2⟩
  | cons b rest ih =>
    intro s sbl ws h1 h2
    rw [writeLoop]
    by_cases hc : (sbl % BUFFER_LEN == 0) = true
    · rw [if_pos hc]
      exact ih _ _ _ (by norm_num) (by norm_num)
    · rw [if_neg hc]
      have hlt : sbl < 64 := by
        have : sbl % 64 ≠ 0 := fun e => hc (by simp [BUFFER_LEN, e])
        omega
      exact ih _ _ _ (by omega) (by omega)

/-- Throughout the upload loop the buffer length equals `start_byte_len`,
and every packet the loop flushes is exactly 64 bytes. -/
theorem writeLoop_invariant (bs : List Nat) :
    ∀ (s : ISPState) (sbl : Nat) (ws : List (List Nat)),
      s.isp_buffer.length = sbl → 0 < sbl → sbl ≤ 64 →
      (writeLoop bs s sbl ws).state.isp_buffer.length
          = (writeLoop bs s sbl ws).sbl ∧
      ∀ w ∈ (writeLoop bs s sbl ws).ws, w ∈ ws ∨ w.length = 64 := by
  induction bs with
  | nil =>
    intro s sbl ws hb h1 h2
    exact ⟨hb, fun w hw => Or.inl hw⟩
  | cons b rest ih =>
    intro s sbl ws hb h1 h2
    rw [writeLoop]
    by_cases hc : (sbl % BUFFER_LEN == 0) = true
    · rw [if_pos hc]
      have hs64 : sbl = 64 := by
        have := beq_iff_eq.mp hc
        simp only [BUFFER_LEN] at this
        omega
      have hnext :
          ({ updatePackageNumber (appendBufferEmptyValues
              { s with package_no := s.package_no + 2 } 8) with
              isp_buffer := (updatePackageNumber (appendBufferEmptyValues
                { s with package_no := s.package_no + 2 } 8)).isp_buffer
                ++ [b] } : ISPState).isp_buffer.length = 8 + 1 := by
        simp [appendBufferEmptyValues, updatePackageNumber]
      obtain ⟨ha, hm⟩ := ih _ _ (ws ++ [s.isp_buffer]) hnext (by norm_num)
        (by norm_num)
      refine ⟨ha, fun w hw => ?_⟩
      rcases hm w hw with h | h
      · rcases List.mem_append.mp h with h' | h'
        · exact Or.inl h'
        · rw [List.mem_singleton] at h'
          subst h'
          exact Or.inr (by rw [hb, hs64])
      · exact Or.inr h
    · rw [if_neg hc]
      have hlt : sbl < 64 := by
        have : sbl % 64 ≠ 0 := fun e => hc (by simp [BUFFER_LEN, e])
        omega
      have hnext : ({ s with isp_buffer := s.isp_buffer ++ [b] }
          : ISPState).isp_buffer.length = sbl + 1 := by
        simp [hb]
      exact ih _ _ ws hnext (by omega) (by omega)

/-- The number of packets flushed inside the upload loop is `flushCount`
over the length of the remaining image. -/
theorem writeLoop_count (bs : List Nat) :
    ∀ (s : ISPState) (sbl : Nat) (ws : List (List Nat)),
      (writeLoop bs s sbl ws).ws.length = ws.length + flushCount bs.length sbl := by
  induction bs with
  | nil =>
    intro s sbl ws
    rw [writeLoop, List.length_nil, flushCount]
    rfl
  | cons b rest ih =>
    intro s sbl ws
    rw [writeLoop, List.length_cons, flushCount]
    by_cases hc : (sbl % BUFFER_LEN == 0) = true
    · rw [if_pos hc, if_pos hc, ih, List.length_append]
      norm_num
      omega
    · rw [if_neg hc, if_neg hc, ih]

/-- Closed form for `flushCount`: starting from `start_byte_len = sbl`, the
loop flushes once the first `64 - sbl` bytes are consumed and then once per
further 56 bytes. -/
theorem flushCount_eq (n : Nat) :
    ∀ sbl : Nat, 0 < sbl → sbl ≤ 64 →
      flushCount n sbl = (n - (64 - sbl) + 55) / 56 := by
  induction n with
  | zero => intro sbl h1 h2; rw [flushCount]; omega
  | succ n ih =>
    intro sbl h1 h2
    rw [flushCount]
    by_cases hc : (sbl % BUFFER_LEN == 0) = true
    · rw [if_pos hc]
      have hs64 : sbl = 64 := by
        have := beq_iff_eq.mp hc
        simp only [BUFFER_LEN] at this
        omega
      rw [ih 9 (by norm_num) (by norm_num), hs64]
      omega
    · rw [if_neg hc]
      have hlt : sbl < 64 := by
        have : sbl % 64 ≠ 0 := fun e => hc (by simp [BUFFER_LEN, e])
        omega
      rw [ih (sbl + 1) (by omega) (by omega)]
      omega

/-- On a connected session, `writeBinaryMCU` transmits exactly
`1 + ((L - 48) + 55) / 56` packets (the 16-byte-header first packet carries
up to 48 firmware bytes, each later packet up to 56), and every transmitted
packet is exactly 64 bytes. -/
theorem writeBinaryMCU_writes (s : ISPState) (content finalResp : List Nat)
    (hconn : s.mcu_connect_status = true) :
    (writeBinaryMCU s content finalResp).writes.length
      = 1 + (content.length - 48 + 55) / 56 ∧
    ∀ w ∈ (writeBinaryMCU s content finalResp).writes, w.length = 64 := by
  unfold writeBinaryMCU
  dsimp only
  set t := writeDataToBuffer { bufferClear s with isp_buffer := [] }
    content.length 16 0 with ht
  set r := writeLoop content t 16 [] with hr
  have htlen : t.isp_buffer.length = 16 := by
    rw [ht]
    simp [writeDataToBuffer, bufferClear, hconn, appendBufferEmptyValues,
      updatePackageNumber]
  have hsbl := writeLoop_sbl content t 16 [] (by norm_num) (by norm_num)
  have hinv := writeLoop_invariant content t 16 [] htlen (by norm_num)
    (by norm_num)
  have hcount := writeLoop_count content t 16 []
  rw [← hr] at hsbl hinv hcount
  rw [if_pos (show r.sbl > 0 from hsbl.1)]
  split_ifs with hchk
  all_goals
    constructor
    · dsimp only
      rw [List.length_append, hcount,
        flushCount_eq content.length 16 (by norm_num) (by norm_num)]
      simp only [List.length_nil, List.length_singleton]
      omega
    · intro w hw
      dsimp only at hw
      rcases List.mem_append.mp hw with h | h
      · rcases hinv.2 w h with h' | h'
        · cases h'
        · exact h'
      · rw [List.mem_singleton] at h
        subst h
        rw [List.length_append, List.length_replicate, hinv.1]
        have := hsbl.2
        simp only [BUFFER_LEN]
        omega

/-! ### Claim C2 -/

/-- Claim C2 (amended): on a connected session, `writeBinaryMCU` transmits
exactly `1 + ceil(max(L - 48, 0) / 56) = 1 + ((L - 48) + 55) / 56` packets —
the first packet's 16-byte header leaves room for 48 firmware bytes and each
subsequent packet's 8-byte header leaves room for 56 — and every transmitted
packet, the zero-padded final one included, is exactly 64 bytes.  (The
claimed count `ceil((L + 16) / 64)` holds only for small images; see the
counterexample at `L = 112`.) -/
theorem C2_upload_packet_count (s : ISPState) (content finalResp : List Nat)
    (hconn : s.mcu_connect_status = true) :
    (writeBinaryMCU s content finalResp).writes.length
      = 1 + (content.length - 48 + 55) / 56 ∧
    ∀ w ∈ (writeBinaryMCU s content finalResp).writes, w.length = 64 :=
  writeBinaryMCU_writes s content finalResp hconn

/-- Counterexample to C2 as stated: a 112-byte image is transmitted in 3
packets (48 bytes fit the header packet, 56 the second packet, the last 8 in
a zero-padded third), but `ceil((112 + 16) / 64) = 2`. -/
theorem C2_upload_packet_count_counterexample :
    (writeBinaryMCU sConn (List.replicate 112 0) []).writes.length = 3 ∧
    (112 + 16 + 63) / 64 = 2 :=
  ⟨by decide, by decide⟩

/-- Witness for C2 at the spec's 56-byte scenario: exactly 2 packets. -/
theorem C2_upload_packet_count_witness :
    (writeBinaryMCU sConn (List.replicate 56 7) []).writes.length = 2 :=
  ((C2_upload_packet_count sConn (List.replicate 56 7) [] rfl).1).trans
    (by decide)

/-! ### Claim C4 -/

/-- The shared command packet is 64 bytes long. -/
theorem simpleCmdBuild_buffer_length (s : ISPState) (c : Nat) :
    (simpleCmdBuild s c).isp_buffer.length = 64 := by
  simp [simpleCmdBuild, bufferClear, updatePackageNumber, BUFFER_LEN]

/-- The connect packet is 64 bytes long. -/
theorem connectBuild_buffer_length (s : ISPState) :
    (connectBuild s).isp_buffer.length = 64 := by
  simp [connectBuild, bufferClear, updatePackageNumber, BUFFER_LEN]

/-- The sync packet is 64 bytes long. -/
theorem syncBuild_buffer_length (s : ISPState) :
    (syncBuild s).isp_buffer.length = 64 := by
  simp [syncBuild, bufferClear, updatePackageNumber, BUFFER_LEN]

/-- Claim C4: every packet written to the serial transport — by each of the
nine command methods in any session state, and by every upload frame of
`writeBinaryMCU` on a connected session — is exactly 64 bytes long. -/
theorem C4_every_packet_is_64_bytes :
    (∀ (s : ISPState) (resp w : List Nat),
      (w ∈ (connectMCU s resp).writes → w.length = 64) ∧
      (w ∈ (readConfigMCU s resp).writes → w.length = 64) ∧
      (w ∈ (readDeviceIDMCU s resp).writes → w.length = 64) ∧
      (w ∈ (readFirmwareVersionMCU s resp).writes → w.length = 64) ∧
      (w ∈ (resetMCU s resp).writes → w.length = 64) ∧
      (w ∈ (runAPROM s resp).writes → w.length = 64) ∧
      (w ∈ (runLDROM s resp).writes → w.length = 64) ∧
      (w ∈ (syncMCU s resp).writes → w.length = 64) ∧
      (w ∈ (eraseAllMCU s resp).writes → w.length = 64)) ∧
    (∀ (s : ISPState) (content finalResp : List Nat),
      s.mcu_connect_status = true →
      ∀ w ∈ (writeBinaryMCU s content finalResp).writes, w.length = 64) := by
  constructor
  · intro s resp w
    refine ⟨?_, ?_, ?_, ?_, ?_, ?_, ?_, ?_, ?_⟩
    · intro hw
      simp only [connectMCU] at hw
      split_ifs at hw <;>
        simp_all [connectBuild_buffer_length]
    · intro hw
      simp only [readConfigMCU] at hw
      split_ifs at hw <;>
        simp_all [simpleCmdBuild_buffer_length]
    · intro hw
      simp only [readDeviceIDMCU] at hw
      split_ifs at hw <;>
        simp_all [simpleCmdBuild_buffer_length]
    · intro hw
      simp only [readFirmwareVersionMCU] at hw
      split_ifs at hw <;>
        simp_all [simpleCmdBuild_buffer_length]
    · intro hw
      simp only [resetMCU] at hw
      split_ifs at hw <;>
        simp_all [simpleCmdBuild_buffer_length]
    · intro hw
      simp only [runAPROM] at hw
      split_ifs at hw <;>
        simp_all [simpleCmdBuild_buffer_length]
    · intro hw
      simp only [runLDROM] at hw
      split_ifs at hw <;>
        simp_all [simpleCmdBuild_buffer_length]
    · intro hw
      simp only [syncMCU] at hw
      split_ifs at hw <;>
        simp_all [syncBuild_buffer_length]
    · intro hw
      simp only [eraseAllMCU] at hw
      split_ifs at hw <;>
        simp_all [simpleCmdBuild_buffer_length]
  · exact fun s content finalResp hconn =>
      (writeBinaryMCU_writes s content finalResp hconn).2

/-- Witness for C4: the connect packet actually sent from a fresh session,
and the first frame of a concrete 56-byte upload, are 64 bytes. -/
theorem C4_every_packet_is_64_bytes_witness :
    (connectBuild sDisc).isp_buffer.length = 64 ∧
    ((writeBinaryMCU sConn (List.replicate 56 7) []).writes.getD 0 []).length
      = 64 :=
  ⟨(C4_every_packet_is_64_bytes.1 sDisc respBad8
      (connectBuild sDisc).isp_buffer).1 (by decide),
    C4_every_packet_is_64_bytes.2 sConn (List.replicate 56 7) [] rfl _
      (by decide)⟩

/-! ### Claim C7 -/

/-- Claim C7 (amended): every command method other than `connectMCU` and
other than the firmware upload, when invoked with the connection flag down,
returns failure immediately and performs no serial write (and hence no
subsequent read: in the source every read follows the branch's write).
`writeBinaryMCU` is excluded: it never checks the flag — see the
counterexample. -/
theorem C7_not_connected_no_io (s : ISPState) (resp : List Nat)
    (h : s.mcu_connect_status = false) :
    (readConfigMCU s resp).ret = some false ∧
    (readConfigMCU s resp).writes = [] ∧
    (readDeviceIDMCU s resp).ret = some false ∧
    (readDeviceIDMCU s resp).writes = [] ∧
    (readFirmwareVersionMCU s resp).ret = some false ∧
    (readFirmwareVersionMCU s resp).writes = [] ∧
    (resetMCU s resp).ret = false ∧
    (resetMCU s resp).writes = [] ∧
    (runAPROM s resp).ret = false ∧
    (runAPROM s resp).writes = [] ∧
    (runLDROM s resp).ret = false ∧
    (runLDROM s resp).writes = [] ∧
    (syncMCU s resp).ret = some false ∧
    (syncMCU s resp).writes = [] ∧
    (eraseAllMCU s resp).ret = some false ∧
    (eraseAllMCU s resp).writes = [] := by
  simp [readConfigMCU, readDeviceIDMCU, readFirmwareVersionMCU, resetMCU,
    runAPROM, runLDROM, syncMCU, eraseAllMCU, h]

/-- Counterexample to C7 as stated: `writeBinaryMCU` on a disconnected
session still writes to the serial transport (here a single 48-byte frame
for an empty image: the header build is skipped but the padding flush is
not). -/
theorem C7_not_connected_no_io_counterexample :
    sDisc.mcu_connect_status = false ∧
    (writeBinaryMCU sDisc [] []).writes.length = 1 :=
  ⟨rfl, by decide⟩

/-- Witness for C7 at a concrete disconnected session and response. -/
theorem C7_not_connected_no_io_witness :
    (readConfigMCU sDisc respBad8).ret = some false ∧
    (readConfigMCU sDisc respBad8).writes = [] ∧
    (readDeviceIDMCU sDisc respBad8).ret = some false ∧
    (readDeviceIDMCU sDisc respBad8).writes = [] ∧
    (readFirmwareVersionMCU sDisc respBad8).ret = some false ∧
    (readFirmwareVersionMCU sDisc respBad8).writes = [] ∧
    (resetMCU sDisc respBad8).ret = false ∧
    (resetMCU sDisc respBad8).writes = [] ∧
    (runAPROM sDisc respBad8).ret = false ∧
    (runAPROM sDisc respBad8).writes = [] ∧
    (runLDROM sDisc respBad8).ret = false ∧
    (runLDROM sDisc respBad8).writes = [] ∧
    (syncMCU sDisc respBad8).ret = some false ∧
    (syncMCU sDisc respBad8).writes = [] ∧
    (eraseAllMCU sDisc respBad8).ret = some false ∧
    (eraseAllMCU sDisc respBad8).writes = [] :=
  C7_not_connected_no_io sDisc respBad8 rfl

/-! ### Claim C6 -/

/-- The `mcuLoadSoftware` loop, whose counter rises by 10 every iteration
and is never reset, exits once the counter reaches the budget. -/
theorem loadLoopRun_exits (oracle : Nat → LoopOutcome) (budget : Nat) :
    ∀ (fuel counter i : Nat), budget ≤ counter + 10 * fuel →
      loadLoopRun oracle budget (fuel + 1) counter i ≠ none := by
  intro fuel
  induction fuel with
  | zero =>
    intro counter i h
    rw [loadLoopRun, if_neg (by omega)]
    simp
  | succ n ih =>
    intro counter i h
    rw [loadLoopRun]
    dsimp only
    by_cases hcnt : counter < budget
    · rw [if_pos hcnt]
      by_cases hok : ((oracle i).connectOk && (oracle i).sync1Ok
          && (oracle i).sync2Ok) = true
      · rw [if_pos hok]
        simp
      · rw [if_neg hok]
        exact ih (counter + 10) (i + 1) (by omega)
    · rw [if_neg hcnt]
      simp

/-- Claim C6 (amended): the `mcuLoadSoftware` retry loop always terminates —
for every caller-supplied budget and every sequence of command outcomes it
exits within `budget / 10 + 2` iterations.  The loop in `main`, by contrast,
resets its elapsed counter whenever `connectMCU` succeeds, so with connect
succeeding while sync repeatedly failing it retries indefinitely once the
budget exceeds 10 — see the counterexample. -/
theorem C6_load_loop_terminates (oracle : Nat → LoopOutcome) (budget : Nat) :
    (loadLoopRun oracle budget (budget / 10 + 1 + 1) 0 0).isSome = true :=
  Option.isSome_iff_ne_none.mpr
    (loadLoopRun_exits oracle budget (budget / 10 + 1) 0 0 (by omega))

set_option maxRecDepth 8000 in
/-- Counterexample to C6 as stated: with the default budget of 1000, the
`main` retry loop is still running after 1000 iterations when connect always
succeeds and sync always fails (each success resets the counter to 0, which
then only ever reaches 10), so its iteration count is not bounded by the
budget. -/
theorem C6_main_loop_unbounded_counterexample :
    mainLoopRun alwaysConnectNeverSync 1000 1000 0 0 = none := by
  decide

end ISP
